import Mathlib

/-!
Verification development for the Long_Breakout_Trading repository.

The Kraken breakout bots (kraken_LB1m_AVAX.py and kraken_LB1m_ARB.py) are
shallowly embedded here.  Python Decimal values are modelled as exact
rationals (all operations used by the code - addition, subtraction,
multiplication, exact division, integer division, quantize - are exact at
the precision the code works with).  The Decimal integer-division operator
and Decimal.quantize with ROUND_DOWN both truncate toward zero, which
dTruncDiv models.  External HTTP / WebSocket calls are modelled by
explicit oracle structures supplying each call result, and stateful
methods become state-passing functions.
-/

set_option linter.unusedVariables false

namespace LongBreakout

/-! ### Decimal arithmetic helpers -/

/-- Truncating division: the integer part of a / b truncated toward zero,
as computed by the Decimal integer-division operator and by
Decimal.quantize with ROUND_DOWN. -/
def dTruncDiv (a b : ℚ) : ℤ := Int.tdiv (a / b).num ((a / b).den : ℤ)

/-- The volume lot step derived from a decimal-places count, as in
the source comment: lot step is 10^(-lot_decimals). -/
def lotStep (lot_decimals : ℤ) : ℚ := (10 : ℚ) ^ (-lot_decimals)

/-- Embeds PairRules from kraken_LB1m_AVAX.py / kraken_LB1m_ARB.py.
String fields (pair_key, altname, quote, base, wsname) play no role in the
claims and are omitted.  tick_size is stored directly, as in the
dataclass. -/
structure PairRules where
  ordermin : ℚ
  costmin : Option ℚ
  lot_decimals : ℤ
  tick_size : ℚ
deriving DecidableEq

/-- Embeds KrakenClient._round_volume:
step = 10^(-lot_decimals); return (vol // step) * step. -/
def round_volume (r : PairRules) (vol : ℚ) : ℚ :=
  let step := lotStep r.lot_decimals
  (dTruncDiv vol step : ℚ) * step

/-- Embeds KrakenClient._min_volume_for_price.  The Python truthiness
tests (ordermin and ordermin > 0, costmin and costmin > 0) collapse to
positivity tests since a value that is zero is falsy. -/
def min_volume_for_price (r : PairRules) (price : ℚ) : ℚ :=
  let candidates : List ℚ :=
    (if 0 < r.ordermin then [r.ordermin] else []) ++
    (match r.costmin with
     | some c => if 0 < c ∧ 0 < price then [c / price] else []
     | none => [])
  match candidates with
  | [] => round_volume r 0
  | x :: xs => round_volume r (xs.foldl max x)

/-- Embeds KrakenClient._coerce_volume (kraken_LB1m_AVAX.py):
bump the desired volume up to the minimum, then round to the lot step. -/
def coerce_volume (r : PairRules) (volume price : ℚ) : ℚ :=
  let min_vol := min_volume_for_price r price
  let volume1 := if 0 < min_vol ∧ volume < min_vol then min_vol else volume
  round_volume r volume1

/-- Embeds the Decimal quantize(tick, ROUND_DOWN) pattern used for
prices: truncate the price toward zero onto the tick grid. -/
def quantize_down (tick p : ℚ) : ℚ := (dTruncDiv p tick : ℚ) * tick

/-- The minimumVolumeFor function as the specification words it (section
4.2): the max of the applicable minimum constraints, with NO rounding to
the lot step.  Written only to compare against min_volume_for_price,
which is the embedding of the source. -/
def min_volume_for_price_specWords (r : PairRules) (price : ℚ) : ℚ :=
  let candidates : List ℚ :=
    (if 0 < r.ordermin then [r.ordermin] else []) ++
    (match r.costmin with
     | some c => if 0 < c ∧ 0 < price then [c / price] else []
     | none => [])
  match candidates with
  | [] => 0
  | x :: xs => xs.foldl max x

/-- The instrument rule of claim C4: no minimum order volume, minimum
notional 123, lot step 10 (lot_decimals = -1), tick 1. -/
def rNotional : PairRules := ⟨0, some 123, -1, 1⟩

/-! ### Facts about the truncating division -/

theorem dTruncDiv_eq_floor (a b : ℚ) (ha : 0 ≤ a) (hb : 0 < b) :
    dTruncDiv a b = ⌊a / b⌋ := by
  unfold dTruncDiv
  have h1 : 0 ≤ a / b := div_nonneg ha hb.le
  have h2 : 0 ≤ (a / b).num := Rat.num_nonneg.mpr h1
  rw [Int.tdiv_eq_ediv h2 (Int.ofNat_nonneg _), Rat.floor_def]

theorem lotStep_pos (d : ℤ) : 0 < lotStep d := by
  unfold lotStep
  positivity

/-! ### Claims C4, C5, C6 -/

/-- Claim C4: with minNotional = 123, no minimum order volume and lot
step 10, coercing desired volume 0 at price 10 yields exactly 10: the
notional floor 12.3 is truncated down to the lot grid, below the floor,
not rounded up. -/
theorem coerce_volume_below_notional_floor :
    coerce_volume rNotional 0 10 = 10 := by
  have hmin : min_volume_for_price rNotional 10 = 10 := by
    unfold min_volume_for_price rNotional round_volume lotStep dTruncDiv
    norm_num
    decide
  have hround : round_volume rNotional 10 = 10 := by
    unfold round_volume rNotional lotStep dTruncDiv
    norm_num
  simp only [coerce_volume, hmin]
  norm_num [hround]

/-- Claim C5: for every instrument rule and every volume v that is
non-negative, rounding to the lot step never rounds upward: the result is
at most v and is an exact integer multiple of the lot step. -/
theorem round_volume_le_and_lot_multiple (r : PairRules) (v : ℚ)
    (hv : 0 ≤ v) :
    round_volume r v ≤ v ∧
      ∃ k : ℤ, round_volume r v = k * lotStep r.lot_decimals := by
  have hstep : 0 < lotStep r.lot_decimals := lotStep_pos _
  constructor
  · show (dTruncDiv v (lotStep r.lot_decimals) : ℚ) * lotStep r.lot_decimals ≤ v
    rw [dTruncDiv_eq_floor v _ hv hstep]
    calc (⌊v / lotStep r.lot_decimals⌋ : ℚ) * lotStep r.lot_decimals
        ≤ (v / lotStep r.lot_decimals) * lotStep r.lot_decimals := by
          exact mul_le_mul_of_nonneg_right (Int.floor_le _) hstep.le
      _ = v := div_mul_cancel₀ v hstep.ne'
  · exact ⟨dTruncDiv v (lotStep r.lot_decimals), rfl⟩

/-- Witness for C5 at the concrete rule of C4 and v = 12.3. -/
theorem round_volume_le_and_lot_multiple_witness :
    0 ≤ (123 / 10 : ℚ) ∧
      (round_volume rNotional (123 / 10) ≤ 123 / 10 ∧
        ∃ k : ℤ, round_volume rNotional (123 / 10) =
          k * lotStep rNotional.lot_decimals) :=
  ⟨by norm_num, round_volume_le_and_lot_multiple rNotional (123 / 10) (by norm_num)⟩

/-- Counterexample to claim C6: at the rule of C4 and price 10, the
source function returns 10 (it pre-rounds to the lot step), while the
un-pre-rounded combination of the minimum constraints is 12.3. -/
theorem min_volume_for_price_prerounds :
    min_volume_for_price rNotional 10 ≠
      min_volume_for_price_specWords rNotional 10 := by
  have h1 : min_volume_for_price rNotional 10 = 10 := by
    unfold min_volume_for_price rNotional round_volume lotStep dTruncDiv
    norm_num
    decide
  have h2 : min_volume_for_price_specWords rNotional 10 = 123 / 10 := by
    unfold min_volume_for_price_specWords rNotional
    norm_num
  rw [h1, h2]
  norm_num

/-- Claim C6 as amended: the minimum-volume computation combines the
defined minimum-order-volume and minNotional/price constraints via max
and then rounds the combined value down to the lot step before returning
it (and the call site rounds again after combining with the desired
volume); it is exactly the rounding of the unrounded combination. -/
theorem min_volume_for_price_eq_round_of_specWords (r : PairRules)
    (price : ℚ) :
    min_volume_for_price r price =
      round_volume r (min_volume_for_price_specWords r price) := by
  unfold min_volume_for_price min_volume_for_price_specWords
  cases hc : (if 0 < r.ordermin then [r.ordermin] else []) ++
      (match r.costmin with
       | some c => if 0 < c ∧ 0 < price then [c / price] else []
       | none => []) with
  | nil => simp only [hc]
  | cons x xs => simp only [hc]

/-! ### Order Execution Engine: KrakenClient.place_maker_then_taker
(kraken_LB1m_AVAX.py).  Each external call is supplied by an ExecEnv
oracle; a call either returns a parsed payload or raises.  The function
returns the list of external actions it performed, in order, together
with its outcome. -/

inductive Side
  | buy
  | sell
deriving DecidableEq

structure BookSnap where
  bid : ℚ
  ask : ℚ
deriving DecidableEq

/-- Result of one external call: a parsed payload, or a raised
network/API exception. -/
inductive CallResult (α : Type)
  | ok (a : α)
  | raises
deriving DecidableEq

/-- The parts of an AddOrder response the code inspects: whether the
error list is non-empty, and the first transaction id when
result.txid is present and non-empty. -/
structure AddOrderResp where
  err : Bool
  txid : Option Nat
deriving DecidableEq

/-- Order lifecycle status strings distinguished by the code. -/
inductive OrdStatus
  | stOpen
  | stClosed
  | stFilled
  | stCanceled
  | stOther
deriving DecidableEq

/-- Oracle for the external calls place_maker_then_taker can make, in
program order.  queryResp = ok none models a query response whose
payload lacks the status field (the try/except in the code turns that
into status = None). -/
structure ExecEnv where
  book1 : CallResult BookSnap
  makerResp : CallResult AddOrderResp
  queryResp : CallResult (Option OrdStatus)
  cancelResp : CallResult Unit
  book2 : CallResult BookSnap
  takerResp : CallResult AddOrderResp
deriving DecidableEq

/-- External actions performed by place_maker_then_taker, in order:
the maker AddOrder post, the unconditional sleep(maker_ttl_s + 0.3),
the QueryOrders call, the CancelOrder call, the taker AddOrder post. -/
inductive ExecEvt
  | makerSubmit
  | ttlWait
  | statusQuery
  | cancelReq
  | takerSubmit
deriving DecidableEq

inductive ExecOutcome
  | makerFilled (resp : AddOrderResp)
  | takerDone (resp : AddOrderResp)
  | raised
deriving DecidableEq

/-- The taker-fallback tail of place_maker_then_taker: refresh the book,
compute the slippage-capped marketable limit price, re-coerce the volume
and submit without the post-only flag. -/
def taker_fallback (r : PairRules) (side : Side)
    (volume taker_slip_pct : ℚ) (env : ExecEnv) (trace : List ExecEvt) :
    List ExecEvt × ExecOutcome :=
  match env.book2 with
  | .raises => (trace, .raised)
  | .ok book =>
    let tick := r.tick_size
    let taker_price :=
      match side with
      | .buy => quantize_down tick (book.ask * (1 + taker_slip_pct))
      | .sell => quantize_down tick (book.bid * (1 - taker_slip_pct))
    let vol2 := coerce_volume r volume taker_price
    match env.takerResp with
    | .raises => (trace ++ [.takerSubmit], .raised)
    | .ok resp => (trace ++ [.takerSubmit], .takerDone resp)

/-- Embeds KrakenClient.place_maker_then_taker (kraken_LB1m_AVAX.py):
one maker attempt (post-only, GTD), an unconditional TTL sleep, a status
query and explicit cancel when an order id was obtained and the order is
still open, then the taker fallback.  A raised call aborts the whole
function (no try/except surrounds any of these calls in the source). -/
def place_maker_then_taker (r : PairRules) (side : Side)
    (volume maker_offset_ticks taker_slip_pct : ℚ) (env : ExecEnv) :
    List ExecEvt × ExecOutcome :=
  match env.book1 with
  | .raises => ([], .raised)
  | .ok book =>
    let tick := r.tick_size
    let maker_price :=
      match side with
      | .buy => quantize_down tick (book.bid - tick * maker_offset_ticks)
      | .sell => quantize_down tick (book.ask + tick * maker_offset_ticks)
    let vol := coerce_volume r volume maker_price
    match env.makerResp with
    | .raises => ([.makerSubmit], .raised)
    | .ok mresp =>
      let txid := if mresp.err = false then mresp.txid else none
      match txid with
      | some t =>
        match env.queryResp with
        | .raises => ([.makerSubmit, .ttlWait, .statusQuery], .raised)
        | .ok status =>
          if status = some .stClosed ∨ status = some .stFilled then
            ([.makerSubmit, .ttlWait, .statusQuery], .makerFilled mresp)
          else if status = some .stOpen then
            match env.cancelResp with
            | .raises =>
              ([.makerSubmit, .ttlWait, .statusQuery, .cancelReq], .raised)
            | .ok _ =>
              taker_fallback r side volume taker_slip_pct env
                [.makerSubmit, .ttlWait, .statusQuery, .cancelReq]
          else
            taker_fallback r side volume taker_slip_pct env
              [.makerSubmit, .ttlWait, .statusQuery]
      | none =>
        taker_fallback r side volume taker_slip_pct env
          [.makerSubmit, .ttlWait]

/-- An environment in which every call succeeds and the status query
reports the maker order still open. -/
def envAlwaysOpen : ExecEnv :=
  ⟨.ok ⟨100, 101⟩, .ok ⟨false, some 0⟩, .ok (some .stOpen), .ok (),
    .ok ⟨100, 101⟩, .ok ⟨false, some 1⟩⟩

/-- An environment in which the status-query call raises a network
error; everything else succeeds. -/
def envQueryRaises : ExecEnv :=
  ⟨.ok ⟨100, 101⟩, .ok ⟨false, some 0⟩, .raises, .ok (),
    .ok ⟨100, 101⟩, .ok ⟨false, some 1⟩⟩

/-- An environment in which the maker submission returns an error
payload (no order id); everything else succeeds. -/
def envMakerErr : ExecEnv :=
  ⟨.ok ⟨100, 101⟩, .ok ⟨true, none⟩, .ok (some .stOpen), .ok (),
    .ok ⟨100, 101⟩, .ok ⟨false, some 1⟩⟩

/-! ### Claims C1, C2, C3 -/

/-- Counterexample to claim C1: under an environment whose status query
always reports the order open, the operation performs exactly one maker
submission, not maxMakerAttempts = 3 (the source has no retry loop and
no maxMakerAttempts parameter). -/
theorem maker_submissions_one_not_three :
    ((place_maker_then_taker rNotional .buy 1 1 (1 / 1000)
        envAlwaysOpen).1.count .makerSubmit = 1) ∧
    ¬((place_maker_then_taker rNotional .buy 1 1 (1 / 1000)
        envAlwaysOpen).1.count .makerSubmit = 3) := by
  constructor
  · rfl
  · intro h
    simp [place_maker_then_taker, taker_fallback, envAlwaysOpen] at h

/-- Claim C1 as amended: when every call succeeds and the status query
reports the order still open, the operation performs exactly one maker
submission (there is no retry loop), the TTL wait, one status query, one
cancel after the non-terminal maker attempt, and one taker submission as
the terminal step. -/
theorem maker_then_taker_always_open_trace (r : PairRules) (side : Side)
    (volume offt slip : ℚ) (env : ExecEnv) (b1 b2 : BookSnap)
    (m t : AddOrderResp) (oid : Nat)
    (h1 : env.book1 = .ok b1) (h2 : env.makerResp = .ok m)
    (h3 : m.err = false) (h4 : m.txid = some oid)
    (h5 : env.queryResp = .ok (some .stOpen))
    (h6 : env.cancelResp = .ok ()) (h7 : env.book2 = .ok b2)
    (h8 : env.takerResp = .ok t) :
    place_maker_then_taker r side volume offt slip env =
      ([.makerSubmit, .ttlWait, .statusQuery, .cancelReq, .takerSubmit],
        .takerDone t) := by
  simp [place_maker_then_taker, taker_fallback, h1, h2, h3, h4, h5, h6,
    h7, h8]

/-- Witness for the amended C1 at the concrete always-open
environment. -/
theorem maker_then_taker_always_open_trace_witness :
    place_maker_then_taker rNotional .buy 1 1 (1 / 1000) envAlwaysOpen =
      ([.makerSubmit, .ttlWait, .statusQuery, .cancelReq, .takerSubmit],
        .takerDone ⟨false, some 1⟩) :=
  maker_then_taker_always_open_trace rNotional .buy 1 1 (1 / 1000)
    envAlwaysOpen ⟨100, 101⟩ ⟨100, 101⟩ ⟨false, some 0⟩ ⟨false, some 1⟩ 0
    rfl rfl rfl rfl rfl rfl rfl rfl

/-- Counterexample to claim C2: when the status-query call raises a
network error, the error propagates out of the operation (the outcome is
the raised exception) instead of being caught and treated as a failed
attempt. -/
theorem query_error_propagates :
    (place_maker_then_taker rNotional .buy 1 1 (1 / 1000)
        envQueryRaises).2 = .raised := by
  rfl

/-- Claim C2 as amended: a network/API error raised by an individual
call is NOT caught inside the operation; it propagates to the caller and
aborts the operation.  In particular, when the maker submission
succeeded with an order id and the status query raises, the operation
ends with the raised error and never reaches the taker submission.  Only
an error payload in a response, or a query payload missing the status
field, is treated as attempt-failed. -/
theorem maker_then_taker_query_raise_aborts (r : PairRules) (side : Side)
    (volume offt slip : ℚ) (env : ExecEnv) (b1 : BookSnap)
    (m : AddOrderResp) (oid : Nat)
    (h1 : env.book1 = .ok b1) (h2 : env.makerResp = .ok m)
    (h3 : m.err = false) (h4 : m.txid = some oid)
    (h5 : env.queryResp = .raises) :
    place_maker_then_taker r side volume offt slip env =
      ([.makerSubmit, .ttlWait, .statusQuery], .raised) := by
  simp [place_maker_then_taker, h1, h2, h3, h4, h5]

/-- Witness for the amended C2 at the concrete query-raises
environment. -/
theorem maker_then_taker_query_raise_aborts_witness :
    place_maker_then_taker rNotional .buy 1 1 (1 / 1000) envQueryRaises =
      ([.makerSubmit, .ttlWait, .statusQuery], .raised) :=
  maker_then_taker_query_raise_aborts rNotional .buy 1 1 (1 / 1000)
    envQueryRaises ⟨100, 101⟩ ⟨false, some 0⟩ 0 rfl rfl rfl rfl rfl

/-- Counterexample to claim C3: when the maker submission returns an
error payload (no order id), the operation still performs the
time-to-live wait (the sleep in the source is unconditional) before the
taker fallback, contradicting the claimed skip of the wait. -/
theorem maker_error_still_waits :
    ExecEvt.ttlWait ∈
      (place_maker_then_taker rNotional .buy 1 1 (1 / 1000)
        envMakerErr).1 ∧
    ExecEvt.statusQuery ∉
      (place_maker_then_taker rNotional .buy 1 1 (1 / 1000)
        envMakerErr).1 := by
  constructor
  · show ExecEvt.ttlWait ∈ [ExecEvt.makerSubmit, .ttlWait, .takerSubmit]
    simp
  · show ExecEvt.statusQuery ∉ [ExecEvt.makerSubmit, .ttlWait, .takerSubmit]
    simp

/-- Claim C3 as amended: when the maker submission returns an error (no
order id obtained), the operation proceeds to the taker fallback without
any status query or cancel, but it still performs the time-to-live wait,
since the sleep is unconditional in the source. -/
theorem maker_then_taker_submit_error_path (r : PairRules) (side : Side)
    (volume offt slip : ℚ) (env : ExecEnv) (b1 b2 : BookSnap)
    (m t : AddOrderResp)
    (h1 : env.book1 = .ok b1) (h2 : env.makerResp = .ok m)
    (h3 : m.err = true ∨ m.txid = none)
    (h7 : env.book2 = .ok b2) (h8 : env.takerResp = .ok t) :
    place_maker_then_taker r side volume offt slip env =
      ([.makerSubmit, .ttlWait, .takerSubmit], .takerDone t) := by
  have htx : (if m.err = false then m.txid else none) = none := by
    rcases h3 with h | h
    · rw [h]
      simp
    · rw [h]
      simp
  simp [place_maker_then_taker, taker_fallback, h1, h2, h7, h8, htx]

/-- Witness for the amended C3 at the concrete maker-error
environment. -/
theorem maker_then_taker_submit_error_path_witness :
    place_maker_then_taker rNotional .buy 1 1 (1 / 1000) envMakerErr =
      ([.makerSubmit, .ttlWait, .takerSubmit], .takerDone ⟨false, some 1⟩) :=
  maker_then_taker_submit_error_path rNotional .buy 1 1 (1 / 1000)
    envMakerErr ⟨100, 101⟩ ⟨100, 101⟩ ⟨true, none⟩ ⟨false, some 1⟩
    rfl rfl (Or.inl rfl) rfl rfl

/-! ### Candle buffer (kraken_LB1m_ARB.py: KrakenClient.update_candles
and the capacity-3 deque created in KrakenClient.__init__) -/

/-- A buffered candle object as built by update_candles.  The Python
dict key "open" is rendered copen since open is reserved in Lean. -/
structure Candle where
  copen : ℚ
  high : ℚ
  low : ℚ
  close : ℚ
  volume : ℚ
  time : ℤ
deriving DecidableEq

/-- An inbound raw candle entry from a WebSocket OHLC message. -/
structure RawCandle where
  copen : ℚ
  high : ℚ
  low : ℚ
  close : ℚ
  volume : ℚ
deriving DecidableEq

/-- Append to a bounded deque: when the buffer is at capacity the
leftmost (oldest) entry is evicted, as collections.deque with maxlen
does. -/
def dequeAppend (maxlen : Nat) (buf : List Candle) (x : Candle) :
    List Candle :=
  if buf.length < maxlen then buf ++ [x] else buf.drop 1 ++ [x]

/-- Embeds KrakenClient.update_candles: for each inbound candle, build
the candle object (its time field is the wall clock reading
int(time.time()), passed here as now), pop the last buffered entry when
one exists, then append to the capacity-3 deque. -/
def update_candles (now : ℤ) (buf : List Candle)
    (new_candles : List RawCandle) : List Candle :=
  new_candles.foldl
    (fun b raw =>
      let cobj : Candle :=
        ⟨raw.copen, raw.high, raw.low, raw.close, raw.volume, now⟩
      let b1 := if 0 < b.length then b.dropLast else b
      dequeAppend 3 b1 cobj)
    buf

theorem update_candles_length_le_one (now : ℤ) (buf : List Candle)
    (cs : List RawCandle) (h : buf.length ≤ 1) :
    (update_candles now buf cs).length ≤ 1 := by
  induction cs generalizing buf with
  | nil => simpa [update_candles] using h
  | cons c rest ih =>
    have hstep :
        update_candles now buf (c :: rest) =
          update_candles now
            (dequeAppend 3 (if 0 < buf.length then buf.dropLast else buf)
              ⟨c.copen, c.high, c.low, c.close, c.volume, now⟩) rest := by
      simp [update_candles]
    rw [hstep]
    apply ih
    match buf, h with
    | [], _ => simp [dequeAppend]
    | [a], _ => simp [dequeAppend]

/-! ### Claim C10 -/

/-- Claim C10: starting from the empty buffer created in
KrakenClient.__init__, any sequence of update_candles calls (each with
its wall-clock reading and inbound candle list) leaves at most one
candle in the buffer, despite the deque capacity of 3: every iteration
pops the last entry before appending. -/
theorem candle_buffer_at_most_one
    (calls : List (ℤ × List RawCandle)) :
    (calls.foldl (fun buf u => update_candles u.1 buf u.2) []).length
      ≤ 1 := by
  have key : ∀ (cs : List (ℤ × List RawCandle)) (buf : List Candle),
      buf.length ≤ 1 →
      (cs.foldl (fun b u => update_candles u.1 b u.2) buf).length ≤ 1 := by
    intro cs
    induction cs with
    | nil => intro buf h; simpa using h
    | cons u rest ih =>
      intro buf h
      simp only [List.foldl_cons]
      exact ih _ (update_candles_length_le_one u.1 buf u.2 h)
  exact key calls [] (by simp)

/-! ### Market Data Stream (kraken_LB1m_ARB.py: OHLCSocketClient.run) -/

/-- The WebSocket client state observed across reconnect cycles:
the is-live flag (is_subscribed) and the shared candle buffer. -/
structure WSState where
  is_subscribed : Bool
  candles : List Candle
deriving DecidableEq

/-- Inbound WebSocket messages as dispatched by OHLCSocketClient.run:
status frames, the subscription acknowledgement, heartbeats, and
candle data (whose processing reads the wall clock). -/
inductive WsMsg
  | statusMsg
  | subscribeAck
  | heartbeat
  | ohlcData (now : ℤ) (cs : List RawCandle)

/-- Message dispatch inside the receive loop: status and heartbeat are
informational, the subscription acknowledgement sets is_subscribed, a
candle message updates the buffer. -/
def process_msg (st : WSState) (m : WsMsg) : WSState :=
  match m with
  | .statusMsg => st
  | .subscribeAck => { st with is_subscribed := true }
  | .heartbeat => st
  | .ohlcData now cs => { st with candles := update_candles now st.candles cs }

/-- How the try-block of one iteration of the while-True loop in
OHLCSocketClient.run ended: without an exception, with a raised
websockets.ConnectionClosed, with a raised ConnectionRefusedError, or
with any other raised exception (including the explicit raise on an
error frame). -/
inductive CycleEnd
  | cleanExit
  | connClosed
  | connRefused
  | otherError
deriving DecidableEq

/-- Result of one loop iteration: the state afterwards, the backoff
sleep in seconds before the next connection attempt, and whether the
iteration leaves the loop. -/
structure CycleResult where
  state : WSState
  backoff : Nat
  exitsLoop : Bool
deriving DecidableEq

/-- Embeds one iteration of OHLCSocketClient.run: process the messages
received before the connection ended, then apply the two except
clauses: ConnectionClosed / ConnectionRefusedError set is_subscribed
false and back off 5 seconds; any other exception sets is_subscribed
false and backs off 10 seconds.  No branch leaves the while-True
loop. -/
def run_cycle (st : WSState) (msgs : List WsMsg) (e : CycleEnd) :
    CycleResult :=
  let st1 := msgs.foldl process_msg st
  match e with
  | .cleanExit => ⟨st1, 0, false⟩
  | .connClosed => ⟨{ st1 with is_subscribed := false }, 5, false⟩
  | .connRefused => ⟨{ st1 with is_subscribed := false }, 5, false⟩
  | .otherError => ⟨{ st1 with is_subscribed := false }, 10, false⟩

/-! ### Claim C8 -/

/-- Claim C8: the receive loop never terminates - no iteration outcome
leaves the loop, so there is no maximum retry count; a raised
connection-closed or connection-refused error sets the is-live flag
false with a 5-second backoff before reconnecting, and every other
raised error sets the flag false with a 10-second backoff. -/
theorem stream_loop_retries_forever (st : WSState) (msgs : List WsMsg)
    (e : CycleEnd) :
    (run_cycle st msgs e).exitsLoop = false ∧
    ((e = .connClosed ∨ e = .connRefused) →
      (run_cycle st msgs e).state.is_subscribed = false ∧
        (run_cycle st msgs e).backoff = 5) ∧
    (e = .otherError →
      (run_cycle st msgs e).state.is_subscribed = false ∧
        (run_cycle st msgs e).backoff = 10) := by
  cases e <;> simp [run_cycle]

/-- Witness for C8: a fresh live connection that ends with a raised
connection-closed error goes back to not-live with a 5-second
backoff and stays in the loop. -/
theorem stream_loop_retries_forever_witness :
    (run_cycle ⟨true, []⟩ [] .connClosed).exitsLoop = false ∧
    (run_cycle ⟨true, []⟩ [] .connClosed).state.is_subscribed = false ∧
    (run_cycle ⟨true, []⟩ [] .connClosed).backoff = 5 :=
  ⟨(stream_loop_retries_forever ⟨true, []⟩ [] .connClosed).1,
    ((stream_loop_retries_forever ⟨true, []⟩ [] .connClosed).2.1
      (Or.inl rfl)).1,
    ((stream_loop_retries_forever ⟨true, []⟩ [] .connClosed).2.1
      (Or.inl rfl)).2⟩

/-! ### Strategy Consumer (kraken_LB1m_ARB.py:
CandleBreakoutStrategy.on_new_candle and TradingContext.run) -/

/-- The candle dict handed to the strategy by TradingContext.run:
high, low, close and the timestamp. -/
structure CurrentCandle where
  high : ℚ
  low : ℚ
  close : ℚ
  time : ℤ
deriving DecidableEq

/-- The mutable fields of CandleBreakoutStrategy. -/
structure StratState where
  position_size : ℚ
  prev_high : Option ℚ
  prev_low : Option ℚ
  last_candle_time : Option ℤ
deriving DecidableEq

/-- One order submission performed by place_post_only_limit: side,
the volume actually sent, and the limit price. -/
structure OrderEvt where
  isBuy : Bool
  volume : ℚ
  price : ℚ
deriving DecidableEq

/-- Oracle for the external calls on_new_candle can make: for the i-th
place_post_only_limit call of the entry (resp. exit) retry loop, whether
its response carries an error payload; the ticker snapshot for the i-th
re-pricing; and the available base balance reported at exit time. -/
structure StratEnv where
  entryPlaceErr : Nat → Bool
  entryBook : Nat → Option BookSnap
  availableBase : ℚ
  exitPlaceErr : Nat → Bool
  exitBook : Nat → Option BookSnap

/-- The volume actually submitted by place_post_only_limit
(kraken_LB1m_ARB.py): the desired volume bumped up to the minimum when
one applies.  No lot-step rounding happens at this call site. -/
def post_only_volume (r : PairRules) (volume price : ℚ) : ℚ :=
  let min_vol := min_volume_for_price r price
  if 0 < min_vol ∧ volume < min_vol then min_vol else volume

/-- Embeds the buy retry loop of on_new_candle: up to three post-only
attempts (while attempts < 3); a response without an error ends the
loop successfully; otherwise the price is re-derived from the ticker at
bid minus one tick, or the loop stops when the ticker is unavailable.
fuel is 3 minus the attempts counter; idx numbers the oracle calls.
Returns whether an attempt succeeded, with the submissions made. -/
def entry_loop (r : PairRules) (qty : ℚ) (env : StratEnv) :
    ℚ → Nat → Nat → Bool × List OrderEvt
  | _, _, 0 => (false, [])
  | price, idx, fuel + 1 =>
    let evt : OrderEvt := ⟨true, post_only_volume r qty price, price⟩
    if env.entryPlaceErr idx = false then (true, [evt])
    else
      match env.entryBook idx with
      | none => (false, [evt])
      | some ba =>
        let price1 := quantize_down r.tick_size (ba.bid - r.tick_size)
        let rest := entry_loop r qty env price1 (idx + 1) fuel
        (rest.1, evt :: rest.2)

/-- Embeds the sell retry loop of on_new_candle, symmetric to
entry_loop with re-pricing at ask plus one tick. -/
def exit_loop (r : PairRules) (sell_volume : ℚ) (env : StratEnv) :
    ℚ → Nat → Nat → Bool × List OrderEvt
  | _, _, 0 => (false, [])
  | price, idx, fuel + 1 =>
    let evt : OrderEvt := ⟨false, post_only_volume r sell_volume price, price⟩
    if env.exitPlaceErr idx = false then (true, [evt])
    else
      match env.exitBook idx with
      | none => (false, [evt])
      | some ba =>
        let price1 := quantize_down r.tick_size (ba.ask + r.tick_size)
        let rest := exit_loop r sell_volume env price1 (idx + 1) fuel
        (rest.1, evt :: rest.2)

/-- Embeds CandleBreakoutStrategy.on_new_candle (kraken_LB1m_ARB.py).
A candle whose timestamp has not advanced is rejected up front.  On the
first processed candle only the previous high/low are seeded.  A
breakout entry runs the buy retry loop and on success sets the position
to the configured qty; an exit computes the sellable volume from the
available balance (returning early, without rolling the previous
high/low, when it is zero), runs the sell retry loop and on success
subtracts the sold volume.  Returns the new state and the submissions
made. -/
def on_new_candle (r : PairRules) (qty buffer_pct : ℚ) (st : StratState)
    (c : CurrentCandle) (env : StratEnv) : StratState × List OrderEvt :=
  if (match st.last_candle_time with
      | some t => decide (c.time ≤ t)
      | none => false) then (st, [])
  else
    let st := { st with last_candle_time := some c.time }
    match st.prev_high, st.prev_low with
    | some ph, some pl =>
      let close := c.close
      let long_entry := ph < close ∧ st.position_size = 0
      let long_exit := close < pl ∧ 0 < st.position_size
      let entryRes :=
        if long_entry then
          let buy_price := quantize_down r.tick_size (close * (1 - buffer_pct))
          let res := entry_loop r qty env buy_price 0 3
          ((if res.1 then { st with position_size := qty } else st), res.2)
        else (st, [])
      let st1 := entryRes.1
      let evts1 := entryRes.2
      if long_exit then
        let sell_price := quantize_down r.tick_size (close * (1 + buffer_pct))
        let available := env.availableBase
        let sell_volume :=
          if 0 < available then min st1.position_size available else 0
        if sell_volume ≤ 0 then (st1, evts1)
        else
          let res := exit_loop r sell_volume env sell_price 0 3
          let st2 :=
            if res.1 then
              { st1 with position_size := st1.position_size - sell_volume }
            else st1
          ({ st2 with prev_high := some c.high, prev_low := some c.low },
            evts1 ++ res.2)
      else
        ({ st1 with prev_high := some c.high, prev_low := some c.low },
          evts1)
    | _, _ =>
      ({ st with prev_high := some c.high, prev_low := some c.low }, [])

/-- A strategy-call oracle whose first order attempt always succeeds
and whose ticker is never consulted. -/
def envEntryOk : StratEnv :=
  ⟨fun _ => false, fun _ => none, 0, fun _ => false, fun _ => none⟩

/-! ### Claim C7 -/

/-- Claim C7: a candle whose timestamp is not strictly greater than the
last-processed timestamp makes the handler a no-op: position size,
previous high, previous low and last-processed timestamp are unchanged
and no order is placed; hence a second update with the same timestamp
causes no second breakout evaluation. -/
theorem stale_candle_is_noop (r : PairRules) (qty buffer_pct : ℚ)
    (st : StratState) (c : CurrentCandle) (env : StratEnv) (t : ℤ)
    (h1 : st.last_candle_time = some t) (h2 : c.time ≤ t) :
    on_new_candle r qty buffer_pct st c env = (st, []) := by
  unfold on_new_candle
  rw [h1]
  simp [h2]

/-- Witness for C7: a second candle carrying the already-processed
timestamp 5 leaves the state untouched and places no order. -/
theorem stale_candle_is_noop_witness :
    on_new_candle rNotional 1 0 ⟨0, none, none, some 5⟩ ⟨1, 1, 1, 5⟩
        envEntryOk = (⟨0, none, none, some 5⟩, []) :=
  stale_candle_is_noop rNotional 1 0 ⟨0, none, none, some 5⟩ ⟨1, 1, 1, 5⟩
    envEntryOk 5 rfl (le_refl 5)

/-! ### Reachable strategy states (TradingContext.run,
kraken_LB1m_ARB.py) -/

/-- The strategy starts flat with no previous levels and no processed
timestamp (CandleBreakoutStrategy.__init__). -/
def initState : StratState := ⟨0, none, none, none⟩

/-- Embeds the startup position sync in TradingContext.run: the
position is set to the exchange base balance when that is positive,
otherwise it stays flat. -/
def sync_position (st : StratState) (b : ℚ) : StratState :=
  if 0 < b then { st with position_size := b } else st

/-- The states of the Strategy Consumer reachable from the flat initial
state by the startup balance sync and any sequence of candle-handler
invocations, for a fixed configuration (rules, qty, buffer). -/
inductive Reachable (r : PairRules) (qty buffer_pct : ℚ) :
    StratState → Prop
  | init : Reachable r qty buffer_pct initState
  | sync (b : ℚ) : Reachable r qty buffer_pct (sync_position initState b)
  | step {st : StratState} (c : CurrentCandle) (env : StratEnv) :
      Reachable r qty buffer_pct st →
      Reachable r qty buffer_pct (on_new_candle r qty buffer_pct st c env).1

theorem on_new_candle_position_nonneg (r : PairRules)
    (qty buffer_pct : ℚ) (st : StratState) (c : CurrentCandle)
    (env : StratEnv) (hq : 0 ≤ qty) (h : 0 ≤ st.position_size) :
    0 ≤ (on_new_candle r qty buffer_pct st c env).1.position_size := by
  unfold on_new_candle
  split
  · exact h
  · dsimp only
    split
    · split_ifs <;> dsimp only <;>
        first
          | exact h
          | exact hq
          | (apply sub_nonneg.mpr; exact inf_le_left)
          | linarith
    · exact h

/-- The instrument rule used for the C9 counterexample: no minimums,
lot step 1 (lot_decimals = 0), tick 1. -/
def rUnit : PairRules := ⟨0, none, 0, 1⟩

theorem entry_loop_envEntryOk3 (r : PairRules) (qty price : ℚ)
    (idx : Nat) :
    entry_loop r qty envEntryOk price idx 3 =
      (true, [⟨true, post_only_volume r qty price, price⟩]) := rfl

/-- Counterexample to claim C9: with configured quantity 1/2 and lot
step 1, the state reached after a seeding candle and a breakout candle
whose entry order succeeds holds position 1/2, which is not an integer
multiple of the lot step (the code assigns the raw configured quantity,
never quantizing it). -/
theorem position_not_lot_multiple :
    Reachable rUnit (1 / 2) 0 ⟨1 / 2, some 11, some 8, some 2⟩ ∧
    ¬ ∃ k : ℤ,
      (StratState.position_size ⟨1 / 2, some 11, some 8, some 2⟩) =
        k * lotStep rUnit.lot_decimals := by
  constructor
  · have h1 : (on_new_candle rUnit (1 / 2) 0 initState ⟨10, 9, 9, 1⟩
        envEntryOk).1 = ⟨0, some 10, some 9, some 1⟩ := rfl
    have h2 : (on_new_candle rUnit (1 / 2) 0 ⟨0, some 10, some 9, some 1⟩
        ⟨11, 8, 11, 2⟩ envEntryOk).1 = ⟨1 / 2, some 11, some 8, some 2⟩ := by
      unfold on_new_candle
      norm_num [entry_loop_envEntryOk3]
    have hs1 := @Reachable.step rUnit (1 / 2) 0 initState ⟨10, 9, 9, 1⟩
      envEntryOk (@Reachable.init rUnit (1 / 2) 0)
    rw [h1] at hs1
    have hs2 := @Reachable.step rUnit (1 / 2) 0 _ ⟨11, 8, 11, 2⟩
      envEntryOk hs1
    rw [h2] at hs2
    exact hs2
  · rintro ⟨k, hk⟩
    have hl : lotStep rUnit.lot_decimals = 1 := by
      unfold rUnit lotStep
      norm_num
    rw [hl, mul_one] at hk
    have hk2 : (2 : ℚ) * (k : ℚ) = 1 := by
      rw [← hk]
      norm_num
    have hk3 : (2 * k : ℤ) = 1 := by exact_mod_cast hk2
    omega

/-- Claim C9 as amended: for every non-negative configured order
quantity, every reachable state of the Strategy Consumer holds a
non-negative position volume.  The lot-step-multiple part of the claim
fails (see the counterexample): the position is assigned the raw
configured quantity or the raw synced balance, which the code never
quantizes to the lot step. -/
theorem reachable_position_nonneg (r : PairRules) (qty buffer_pct : ℚ)
    (hq : 0 ≤ qty) {st : StratState}
    (h : Reachable r qty buffer_pct st) : 0 ≤ st.position_size := by
  induction h with
  | init => exact le_refl 0
  | sync b =>
    unfold sync_position initState
    split
    · dsimp only
      linarith
    · exact le_refl 0
  | step c env _ ih =>
    exact on_new_candle_position_nonneg _ _ _ _ _ _ hq ih

/-- Witness for the amended C9: quantity 1 is non-negative and the
initial flat state, which is reachable, has a non-negative position. -/
theorem reachable_position_nonneg_witness :
    0 ≤ (1 : ℚ) ∧ 0 ≤ initState.position_size :=
  ⟨by norm_num,
    reachable_position_nonneg rUnit 1 0 (by norm_num) Reachable.init⟩

end LongBreakout
